import Mathlib

/-!
Shallow embedding of the NotionDatabaseLinker core of
src/pydantic_api/notion/sdk/tools/notion_database_linker.py, together with
the remote-service collaborator contract it drives.  The linker-side control
paths (attach / detach / insert / empty and their helpers) are translated
directly from the Python source.  The remote service itself (the behaviour
behind search, databases.create, databases.query, pages.create,
blocks.append_children and the soft delete) lives outside this repository's
src tree, so its behaviour is modelled from the specification's collaborator
contract: an environment fixes the single search response, the created
database, the service default page size, and the outcomes of the page-create
and content-append calls, while a record store plus a call trace make the
remote effects of each linker operation observable.
-/

namespace NotionSDK

/-- Modelled from the spec: ParentReference, the variant
`PageParent(pageId) | CollectionParent(collectionId)` plus the service's
remaining parent kinds (collapsed into `workspace`); the `Database` pydantic
model carrying it lives in the external `pydantic_api.notion.models` package,
not under src.  The Python code inspects `parent.type == "page_id"` and reads
`parent.page_id`. -/
inductive ParentRef where
  | pageId (id : Nat)
  | databaseId (id : Nat)
  | workspace
  deriving DecidableEq, Repr

/-- Modelled from the spec: RemoteCollection `{id, title, parentReference,
archived}`; mirrors the fields of the external `Database` model that
`_find_existed_by_name` reads (`archived`, `plain_text_title`, `parent`,
`id`). -/
structure Database where
  id : Nat
  plain_text_title : String
  parent : ParentRef
  archived : Bool
  deriving DecidableEq, Repr

/-- A created page (record); only its id is observed by the linker. -/
structure PageObj where
  id : Nat
  deriving DecidableEq, Repr

/-- Opaque transport/service failure carried by a failing remote call. -/
abbrev RemoteErr := Nat

/-- One remote call issued through the NotionClient, as observed at the
endpoint boundary.  `search` carries the query, the filter value and the
start cursor actually passed; `queryDatabase` carries the database id and the
start cursor actually passed. -/
inductive RemoteCall where
  | search (query : String) (filterValue : String) (startCursor : Option Nat)
  | createDatabase (parentPageId : Nat) (title : String)
  | queryDatabase (databaseId : Nat) (startCursor : Option Nat)
  | createPage (databaseId : Nat)
  | appendChildren (blockId : Nat)
  | trash (pageId : Nat)
  deriving DecidableEq, Repr

/-- The first (and only) page of search results the remote service returns
for the linker's search call, with its pagination envelope
(`has_more` / `next_cursor` fields of NotionPaginatedData). -/
structure SearchResponse where
  results : List Database
  has_more : Bool
  next_cursor : Option Nat
  deriving DecidableEq, Repr

/-- Modelled from the spec: the remote collaborator's behaviour, fixed for
one scenario (no concurrent writers).  `pageSize` is the service's default
page size used by cursor-less queries; `createPageResult` and `appendResult`
are the outcomes of the `pages.create` and `blocks.append_children` calls. -/
structure Env where
  searchResponse : SearchResponse
  createdDatabase : Database
  pageSize : Nat
  createPageResult : Except RemoteErr PageObj
  appendResult : Except RemoteErr Unit
  deriving Repr

/-- The record ids currently stored in the attached collection, in query
order.  Modelled from the spec: `queryCollection` returns the first page of
records, `softDelete` removes one record. -/
structure RemoteState where
  records : List Nat
  deriving DecidableEq, Repr

/-- Errors surfaced by linker operations, one constructor per raise site of
the source (all are `ValueError` in Python; the spec's taxonomy names them by
trigger).  `remote e` is a remote-call failure propagated unchanged. -/
inductive LinkerErr where
  | alreadyAttached (databaseId : Nat)
  | notAttached
  | ambiguousMatch (count : Nat)
  | configurationError
  | invalidEmoji (value : String)
  | validationError
  | remote (e : RemoteErr)
  deriving DecidableEq, Repr

/-- An icon resolved by the icon hooks (IconObjectFactory results). -/
inductive IconObject where
  | emoji (s : String)
  | external (url : String)
  deriving DecidableEq, Repr

/-- A record handed to `insert`; its payload is irrelevant to the control
flow, so records are abstract. -/
abbrev Rec := Nat

/-- One linker specialization: the results of the overridable hook methods of
the abstract base class.  `model_validate` is the pydantic validation of the
declared data model (`none` = ValidationError); `define_page_content` yields
the auxiliary content blocks (the base-class default is falsy/empty). -/
structure LinkerConfig where
  model_validate : Rec → Option Rec
  not_insert_when : Rec → Bool
  define_emoji_icon : Option String
  define_external_icon : Option String
  define_database_properties : Option (List String)
  define_page_content : Rec → List Nat

namespace Linker

/-- `__init__`: stores the client, sets `attached_database = None`, and
evaluates `define_data_model` / `define_database_properties`.  It does not
evaluate the icon hooks and issues no remote calls; the linker state is the
`attached_database` field. -/
def init (_cfg : LinkerConfig) : Option Database × List RemoteCall :=
  (none, [])

/-- The filtering loop of `_find_existed_by_name` (lines 251-262): keep a
search result unless it is archived, or its `plain_text_title` differs from
the requested name, or its parent is of type `page_id`, a parent page id was
requested, and the two page ids differ. -/
def matchedDatabases (database_name : String) (parent_page_id : Option Nat)
    (results : List Database) : List Database :=
  results.filter fun database =>
    !database.archived && database.plain_text_title == database_name &&
      (match database.parent, parent_page_id with
       | ParentRef.pageId pid, some req => pid == req
       | _, _ => true)

/-- `_find_existed_by_name`: issues one search call with the given start
cursor (`attach` always passes the default, `None`) filtered to databases,
then filters the returned page; `has_more` and `next_cursor` of the response
are never read. -/
def _find_existed_by_name (env : Env) (database_name : String)
    (parent_page_id : Option Nat) (start_cursor : Option Nat) :
    List RemoteCall × List Database :=
  ([RemoteCall.search database_name "database" start_cursor],
   matchedDatabases database_name parent_page_id env.searchResponse.results)

/-- `_validate_emoji_icon`: raises when the emoji hook returns a value whose
`len` is not 1; otherwise wraps a truthy value into an emoji icon. -/
def _validate_emoji_icon (cfg : LinkerConfig) : Except LinkerErr (Option IconObject) :=
  match cfg.define_emoji_icon with
  | some s =>
      if s.length ≠ 1 then Except.error (LinkerErr.invalidEmoji s)
      else Except.ok (if s ≠ "" then some (IconObject.emoji s) else none)
  | none => Except.ok none

/-- `_validate_external_icon`: wraps a truthy external URL into an icon. -/
def _validate_external_icon (cfg : LinkerConfig) : Option IconObject :=
  match cfg.define_external_icon with
  | some url => if url ≠ "" then some (IconObject.external url) else none
  | none => none

/-- The icon expression of `_create_database` (line 226):
`self._validate_emoji_icon() or self._validate_external_icon()` — the emoji
hook is evaluated (and validated) first; only when it yields `None` is the
external-URL hook consulted. -/
def resolveIcon (cfg : LinkerConfig) : Except LinkerErr (Option IconObject) :=
  match _validate_emoji_icon cfg with
  | Except.error e => Except.error e
  | Except.ok (some icon) => Except.ok (some icon)
  | Except.ok none => Except.ok (_validate_external_icon cfg)

/-- `_create_database`: fails with the configuration error when
`database_properties` is `None`, before resolving the icon and before issuing
any remote call; otherwise resolves the icon (which may fail) and issues the
`databases.create` call. -/
def _create_database (cfg : LinkerConfig) (env : Env) (database_name : String)
    (parent_page_id : Nat) : Except LinkerErr (List RemoteCall × Database) :=
  match cfg.define_database_properties with
  | none => Except.error LinkerErr.configurationError
  | some _props =>
      match resolveIcon cfg with
      | Except.error e => Except.error e
      | Except.ok _icon =>
          Except.ok ([RemoteCall.createDatabase parent_page_id database_name],
            env.createdDatabase)

/-- Outcome of one `attach` call: the returned value or raised error, the
`attached_database` field afterwards, and the remote calls issued. -/
structure AttachResult where
  result : Except LinkerErr Database
  attached_database : Option Database
  calls : List RemoteCall
  deriving Repr

/-- `attach`: raises if already attached (before any remote call); otherwise
searches once, then raises on more than one candidate, creates on zero
candidates, and adopts the single candidate unchanged otherwise. -/
def attach (cfg : LinkerConfig) (env : Env) (attached_database : Option Database)
    (database_name : String) (parent_page_id : Nat) : AttachResult :=
  match attached_database with
  | some db =>
      ⟨Except.error (LinkerErr.alreadyAttached db.id), some db, []⟩
  | none =>
      let found := _find_existed_by_name env database_name (some parent_page_id) none
      let calls := found.1
      let existed := found.2
      match existed with
      | d1 :: d2 :: rest =>
          ⟨Except.error (LinkerErr.ambiguousMatch (d1 :: d2 :: rest).length),
            none, calls⟩
      | [] =>
          match _create_database cfg env database_name parent_page_id with
          | Except.error e => ⟨Except.error e, none, calls⟩
          | Except.ok (createCalls, db) =>
              ⟨Except.ok db, some db, calls ++ createCalls⟩
      | [db] => ⟨Except.ok db, some db, calls⟩

/-- `detach`: clears the attachment when attached, otherwise does nothing;
purely local, so the issued call list is always empty. -/
def detach (attached_database : Option Database) : Option Database × List RemoteCall :=
  if attached_database.isSome then (none, []) else (attached_database, [])

/-- Modelled from the spec: `queryCollection` without a cursor returns the
first page of records at the service's default page size (the loop in
`empty` passes no `page_size` and no `start_cursor`). -/
def queryPage (env : Env) (st : RemoteState) : List Nat :=
  st.records.take env.pageSize

/-- Modelled from the spec: `softDelete` (move-to-trash) removes the record
from the collection; `pages.trash` itself is absent from src (only its
caller `empty` appears there), so it is modelled from the spec's
`softDelete | recordId | success/failure` contract. -/
def trashPage (st : RemoteState) (page_id : Nat) : RemoteState :=
  ⟨st.records.erase page_id⟩

/-- The `while not is_empty` loop of `empty` (lines 71-86): query without a
cursor; when the page is empty the flag stops the loop (after that final
query); otherwise trash every returned row in order and re-query from the
beginning.  `fuel` bounds the number of iterations; `none` means the loop
did not finish within `fuel` iterations. -/
def emptyLoop (env : Env) (database_id : Nat) :
    Nat → RemoteState → Option (RemoteState × List RemoteCall)
  | 0, _ => none
  | fuel + 1, st =>
      let rows := queryPage env st
      if rows.length = 0 then
        some (st, [RemoteCall.queryDatabase database_id none])
      else
        match emptyLoop env database_id fuel (rows.foldl trashPage st) with
        | none => none
        | some (stFinal, tr) =>
            some (stFinal,
              RemoteCall.queryDatabase database_id none ::
                (rows.map RemoteCall.trash ++ tr))

/-- `empty`: raises when not attached (before any remote call); otherwise
runs the delete-under-pagination loop against the attached database.  The
second component is the `attached_database` field after the call, which the
method never assigns. -/
def empty (env : Env) (attached_database : Option Database) (fuel : Nat)
    (st : RemoteState) :
    Except LinkerErr (Option (RemoteState × List RemoteCall)) × Option Database :=
  match attached_database with
  | none => (Except.error LinkerErr.notAttached, none)
  | some db => (Except.ok (emptyLoop env db.id fuel st), some db)

/-- Outcome of one `insert` call: the returned page (or `None` on the
skip path) or raised error, the `attached_database` field afterwards, the
remote record store afterwards, and the remote calls issued. -/
structure InsertResult where
  result : Except LinkerErr (Option PageObj)
  attached_database : Option Database
  remote : RemoteState
  calls : List RemoteCall
  deriving Repr

/-- `insert`: raises when not attached; validates the record against the
declared data model; returns `None` with no remote call when the skip
predicate holds; otherwise creates the page under the attached database and,
when the specialization declares a truthy (non-empty) content list, appends
it as children of the new page.  Failures of either remote call propagate
unchanged, with no further call (the icon/cover pass-through arguments are
elided: they flow into `pages.create` untouched). -/
def insert (cfg : LinkerConfig) (env : Env) (attached_database : Option Database)
    (st : RemoteState) (record : Rec) : InsertResult :=
  match attached_database with
  | none => ⟨Except.error LinkerErr.notAttached, none, st, []⟩
  | some db =>
      match cfg.model_validate record with
      | none => ⟨Except.error LinkerErr.validationError, some db, st, []⟩
      | some validated =>
          if cfg.not_insert_when validated then
            ⟨Except.ok none, some db, st, []⟩
          else
            match env.createPageResult with
            | Except.error e =>
                ⟨Except.error (LinkerErr.remote e), some db, st,
                  [RemoteCall.createPage db.id]⟩
            | Except.ok page =>
                let st' : RemoteState := ⟨st.records ++ [page.id]⟩
                let children := cfg.define_page_content validated
                if children.length ≠ 0 then
                  match env.appendResult with
                  | Except.error e =>
                      ⟨Except.error (LinkerErr.remote e), some db, st',
                        [RemoteCall.createPage db.id,
                          RemoteCall.appendChildren page.id]⟩
                  | Except.ok _ =>
                      ⟨Except.ok (some page), some db, st',
                        [RemoteCall.createPage db.id,
                          RemoteCall.appendChildren page.id]⟩
                else
                  ⟨Except.ok (some page), some db, st',
                    [RemoteCall.createPage db.id]⟩

end Linker

/-- Recognizes query calls in a trace. -/
def isQueryCall : RemoteCall → Bool
  | RemoteCall.queryDatabase _ _ => true
  | _ => false

/-- Recognizes search calls in a trace. -/
def isSearchCall : RemoteCall → Bool
  | RemoteCall.search _ _ _ => true
  | _ => false

/-- Recognizes creation calls (collection or record) in a trace. -/
def isCreateCall : RemoteCall → Bool
  | RemoteCall.createDatabase _ _ => true
  | RemoteCall.createPage _ => true
  | _ => false

/-- Recognizes soft-delete calls in a trace. -/
def isTrashCall : RemoteCall → Bool
  | RemoteCall.trash _ => true
  | _ => false

/-- Number of query calls in a trace. -/
def countQueries (calls : List RemoteCall) : Nat :=
  (calls.filter isQueryCall).length

/-- The page ids soft-deleted by a trace, in call order. -/
def trashedIds (calls : List RemoteCall) : List Nat :=
  calls.filterMap fun c =>
    match c with
    | RemoteCall.trash pid => some pid
    | _ => none

/-- Ceiling division, the page count `ceil(n / p)`. -/
def ceilDiv (n p : Nat) : Nat := (n + p - 1) / p

/-! Concrete fixtures used by witnesses and counterexamples. -/

/-- A pre-existing, non-archived "Expenses" database under parent page 1. -/
def dbA : Database := ⟨10, "Expenses", ParentRef.pageId 1, false⟩

/-- A second non-archived "Expenses" database under the same parent page. -/
def dbB : Database := ⟨11, "Expenses", ParentRef.pageId 1, false⟩

/-- A non-archived "Expenses" database whose parent is the workspace. -/
def dbW : Database := ⟨12, "Expenses", ParentRef.workspace, false⟩

/-- The page returned by a successful `pages.create`. -/
def page0 : PageObj := ⟨99⟩

/-- Environment for the `empty` scenario: service page size 2, remote calls
succeed; the search response is irrelevant to `empty`. -/
def env5 : Env := ⟨⟨[], false, none⟩, dbA, 2, Except.ok page0, Except.ok ()⟩

/-- An attached collection holding 5 records. -/
def st5 : RemoteState := ⟨[1, 2, 3, 4, 5]⟩

/-- The trace `empty` produces on 5 records with page size 2: pages of sizes
2, 2, 1 and a final query observing the empty page. -/
def trace5 : List RemoteCall :=
  [RemoteCall.queryDatabase 10 none, RemoteCall.trash 1, RemoteCall.trash 2,
   RemoteCall.queryDatabase 10 none, RemoteCall.trash 3, RemoteCall.trash 4,
   RemoteCall.queryDatabase 10 none, RemoteCall.trash 5,
   RemoteCall.queryDatabase 10 none]

/-- Specialization with a declared schema, no icon hooks, a never-true skip
predicate, identity validation, and one content block per record. -/
def cfgBase : LinkerConfig :=
  ⟨some, fun _ => false, none, none, some ["Name"], fun _ => [1]⟩

/-- Specialization whose skip predicate is always true. -/
def cfgSkip : LinkerConfig :=
  ⟨some, fun _ => true, none, none, some ["Name"], fun _ => [1]⟩

/-- Specialization that declares no property schema. -/
def cfgNoSchema : LinkerConfig :=
  ⟨some, fun _ => false, none, none, none, fun _ => [1]⟩

/-- Specialization whose emoji hook returns a two-character value (broken)
next to an external-URL hook and a declared schema. -/
def cfgBadEmoji : LinkerConfig :=
  ⟨some, fun _ => false, some "xx", some "https://icons.example/a.png",
    some ["Name"], fun _ => [1]⟩

/-- Specialization with a valid single-character emoji hook and an
external-URL hook. -/
def cfgEmoji : LinkerConfig :=
  ⟨some, fun _ => false, some "x", some "https://icons.example/a.png",
    some ["Name"], fun _ => [1]⟩

/-- Environment where page creation succeeds and the content append fails. -/
def envC2 : Env := ⟨⟨[], false, none⟩, dbA, 2, Except.ok page0, Except.error 7⟩

/-- Environment whose search returns two matching candidates. -/
def envC3 : Env := ⟨⟨[dbA, dbB], false, none⟩, dbA, 2, Except.ok page0, Except.ok ()⟩

/-- Environment whose search returns exactly one matching candidate. -/
def envC6 : Env := ⟨⟨[dbA], false, none⟩, dbA, 2, Except.ok page0, Except.ok ()⟩

/-- Environment whose search returns no candidate. -/
def envZero : Env := ⟨⟨[], false, none⟩, dbA, 2, Except.ok page0, Except.ok ()⟩

/-- The claim's candidate-retention rule of C5, written from the spec's
words: not archived, exact title, and — whenever a parent page is
specified — the candidate's parent equals that parent page.  Compared
against the source filter `matchedDatabases`. -/
def specClaimRetained (db : Database) (database_name : String)
    (parent_page_id : Option Nat) : Prop :=
  db.archived = false ∧ db.plain_text_title = database_name ∧
    ∀ pid, parent_page_id = some pid → db.parent = ParentRef.pageId pid

/-! Trace-counting helper lemmas. -/

lemma countQueries_cons_query (d : Nat) (cur : Option Nat) (l : List RemoteCall) :
    countQueries (RemoteCall.queryDatabase d cur :: l) = countQueries l + 1 := by
  simp [countQueries, List.filter_cons, isQueryCall]

lemma countQueries_append (a b : List RemoteCall) :
    countQueries (a ++ b) = countQueries a + countQueries b := by
  simp [countQueries, List.filter_append]

lemma countQueries_cons_trash (x : Nat) (l : List RemoteCall) :
    countQueries (RemoteCall.trash x :: l) = countQueries l := by
  simp [countQueries, List.filter_cons, isQueryCall]

lemma countQueries_map_trash (l : List Nat) :
    countQueries (l.map RemoteCall.trash) = 0 := by
  induction l with
  | nil => rfl
  | cons x xs ih => rw [List.map_cons, countQueries_cons_trash, ih]

lemma trashedIds_cons_query (d : Nat) (cur : Option Nat) (l : List RemoteCall) :
    trashedIds (RemoteCall.queryDatabase d cur :: l) = trashedIds l := by
  simp [trashedIds, List.filterMap_cons]

lemma trashedIds_append (a b : List RemoteCall) :
    trashedIds (a ++ b) = trashedIds a ++ trashedIds b := by
  simp [trashedIds, List.filterMap_append]

lemma trashedIds_cons_trash (x : Nat) (l : List RemoteCall) :
    trashedIds (RemoteCall.trash x :: l) = x :: trashedIds l := by
  simp [trashedIds, List.filterMap_cons]

lemma trashedIds_map_trash (l : List Nat) :
    trashedIds (l.map RemoteCall.trash) = l := by
  induction l with
  | nil => rfl
  | cons x xs ih => rw [List.map_cons, trashedIds_cons_trash, ih]

/-! The delete-under-pagination loop: erasing a queried page from the store
leaves exactly the records after that page. -/

lemma trashPage_foldl (l : List Nat) :
    ∀ st : RemoteState, l.foldl Linker.trashPage st =
      ⟨l.foldl (fun r x => r.erase x) st.records⟩ := by
  induction l with
  | nil => intro st; rfl
  | cons x xs ih =>
      intro st
      simp only [List.foldl_cons]
      rw [ih]
      rfl

lemma erase_take_foldl : ∀ (p : Nat) (l : List Nat),
    (l.take p).foldl (fun r x => r.erase x) l = l.drop p := by
  intro p
  induction p with
  | zero => intro l; rfl
  | succ q ih =>
      intro l
      cases l with
      | nil => rfl
      | cons x xs =>
          simp only [List.take_succ_cons, List.foldl_cons, List.drop_succ_cons]
          rw [List.erase_cons_head]
          exact ih xs

lemma trash_take_drop (p : Nat) (recs : List Nat) :
    (recs.take p).foldl Linker.trashPage ⟨recs⟩ = ⟨recs.drop p⟩ := by
  rw [trashPage_foldl]
  exact congrArg RemoteState.mk (erase_take_foldl p recs)

lemma ceilDiv_zero_left {p : Nat} (hp : 0 < p) : ceilDiv 0 p = 0 := by
  unfold ceilDiv
  exact Nat.div_eq_of_lt (by omega)

lemma ceilDiv_step {p n : Nat} (hp : 0 < p) (hn : 1 ≤ n) :
    ceilDiv n p = ceilDiv (n - p) p + 1 := by
  unfold ceilDiv
  rcases le_or_lt p n with hle | hlt
  · have h1 : n + p - 1 = (n - p + p - 1) + p := by omega
    rw [h1, Nat.add_div_right _ hp]
  · have h0 : n - p = 0 := by omega
    have h1 : n + p - 1 = (n - 1) + p := by omega
    rw [h0, h1, Nat.add_div_right _ hp]
    have h2 : (n - 1) / p = 0 := Nat.div_eq_of_lt (by omega)
    have h3 : (0 + p - 1) / p = 0 := Nat.div_eq_of_lt (by omega)
    rw [h2, h3]

/-- Invariant of the `while not is_empty` loop: with enough fuel it empties
the store, issues `ceil(n / p) + 1` cursor-less queries against the attached
database, and soft-deletes exactly the stored records in order. -/
lemma emptyLoop_spec (env : Env) (hp : 0 < env.pageSize) (did : Nat) :
    ∀ fuel (recs : List Nat), recs.length < fuel →
      ∃ tr, Linker.emptyLoop env did fuel ⟨recs⟩ = some (⟨[]⟩, tr) ∧
        countQueries tr = ceilDiv recs.length env.pageSize + 1 ∧
        trashedIds tr = recs ∧
        ∀ c ∈ tr, isQueryCall c = true → c = RemoteCall.queryDatabase did none := by
  intro fuel
  induction fuel with
  | zero => intro recs h; exact absurd h (Nat.not_lt_zero _)
  | succ n ih =>
      intro recs h
      cases recs with
      | nil =>
          refine ⟨[RemoteCall.queryDatabase did none], ?_, ?_, ?_, ?_⟩
          · simp [Linker.emptyLoop, Linker.queryPage]
          · simp [countQueries, List.filter_cons, isQueryCall,
              ceilDiv_zero_left hp]
          · simp [trashedIds, List.filterMap_cons]
          · intro c hc _
            simp only [List.mem_singleton] at hc
            exact hc
      | cons r rs =>
          simp only [List.length_cons] at h
          have hlen0 : ((r :: rs).take env.pageSize).length ≠ 0 := by
            simp only [List.length_take, List.length_cons, ne_eq]
            omega
          have hrec : ((r :: rs).drop env.pageSize).length < n := by
            simp only [List.length_drop, List.length_cons]
            omega
          obtain ⟨tr', heq, hq, ht, hall⟩ := ih ((r :: rs).drop env.pageSize) hrec
          refine ⟨RemoteCall.queryDatabase did none ::
            (((r :: rs).take env.pageSize).map RemoteCall.trash ++ tr'), ?_, ?_, ?_, ?_⟩
          · show Linker.emptyLoop env did (n + 1) ⟨r :: rs⟩ = _
            simp only [Linker.emptyLoop, Linker.queryPage]
            rw [if_neg hlen0, trash_take_drop env.pageSize (r :: rs), heq]
          · rw [countQueries_cons_query, countQueries_append,
              countQueries_map_trash, hq]
            simp only [List.length_drop, List.length_cons]
            have hstep := ceilDiv_step (p := env.pageSize) (n := rs.length + 1)
              hp (by omega)
            omega
          · rw [trashedIds_cons_query, trashedIds_append, trashedIds_map_trash, ht]
            exact List.take_append_drop env.pageSize (r :: rs)
          · intro c hc hqc
            rcases List.mem_cons.mp hc with hc1 | hc2
            · exact hc1
            rcases List.mem_append.mp hc2 with hc3 | hc4
            · obtain ⟨a, _, rfl⟩ := List.mem_map.mp hc3
              simp [isQueryCall] at hqc
            · exact hall c hc4 hqc

/-- C1 (amended): with no concurrent writers, `empty()` on an attached
collection of `n` records and service page size `p > 0` repeatedly issues a
cursor-less query against the attached collection, soft-deletes every
returned item in the order queried, and stops when a query returns zero
items; it therefore issues exactly `ceil(n / p) + 1` query calls (the final
query observes the empty page) and exactly `n` delete calls. -/
theorem C1_empty_query_delete_counts (env : Env) (db : Database) (fuel : Nat)
    (st : RemoteState) (hp : 0 < env.pageSize) (hfuel : st.records.length < fuel) :
    ∃ tr, (Linker.empty env (some db) fuel st).1 = Except.ok (some (⟨[]⟩, tr)) ∧
      countQueries tr = ceilDiv st.records.length env.pageSize + 1 ∧
      trashedIds tr = st.records ∧
      ∀ c ∈ tr, isQueryCall c = true → c = RemoteCall.queryDatabase db.id none := by
  obtain ⟨recs⟩ := st
  obtain ⟨tr, heq, hq, ht, hall⟩ := emptyLoop_spec env hp db.id fuel recs hfuel
  exact ⟨tr, by simp [Linker.empty, heq], hq, ht, hall⟩

/-- C1 witness: the theorem applied to the concrete 5-record, page-size-2
scenario. -/
theorem C1_empty_query_delete_counts_witness :
    ∃ tr, (Linker.empty env5 (some dbA) 6 st5).1 = Except.ok (some (⟨[]⟩, tr)) ∧
      countQueries tr = ceilDiv st5.records.length env5.pageSize + 1 ∧
      trashedIds tr = st5.records ∧
      ∀ c ∈ tr, isQueryCall c = true → c = RemoteCall.queryDatabase dbA.id none :=
  C1_empty_query_delete_counts env5 dbA 6 st5 (by decide) (by decide)

/-- C1 counterexample: on 5 records with page size 2 the code issues 4 query
calls (pages of sizes 2, 2, 1 and a final empty page), not the 3 the claim
states; the 5 deletes do happen in the order queried. -/
theorem C1_counterexample :
    (Linker.empty env5 (some dbA) 6 st5).1 = Except.ok (some (⟨[]⟩, trace5)) ∧
      countQueries trace5 = 4 ∧ countQueries trace5 ≠ 3 ∧
      trashedIds trace5 = [1, 2, 3, 4, 5] := by
  refine ⟨rfl, rfl, by decide, rfl⟩

/-! Helper lemmas about attach's three resolution branches. -/

lemma attach_single (cfg : LinkerConfig) (env : Env) (name : String) (pid : Nat)
    (db : Database)
    (hm : Linker.matchedDatabases name (some pid) env.searchResponse.results = [db]) :
    Linker.attach cfg env none name pid =
      ⟨Except.ok db, some db, [RemoteCall.search name "database" none]⟩ := by
  simp [Linker.attach, Linker._find_existed_by_name, hm]

lemma attach_ambiguous (cfg : LinkerConfig) (env : Env) (name : String) (pid : Nat)
    (d1 d2 : Database) (rest : List Database)
    (hm : Linker.matchedDatabases name (some pid) env.searchResponse.results =
      d1 :: d2 :: rest) :
    Linker.attach cfg env none name pid =
      ⟨Except.error (LinkerErr.ambiguousMatch (d1 :: d2 :: rest).length), none,
        [RemoteCall.search name "database" none]⟩ := by
  simp [Linker.attach, Linker._find_existed_by_name, hm]

lemma attach_zero (cfg : LinkerConfig) (env : Env) (name : String) (pid : Nat)
    (hm : Linker.matchedDatabases name (some pid) env.searchResponse.results = []) :
    Linker.attach cfg env none name pid =
      (match Linker._create_database cfg env name pid with
       | Except.error e =>
           ⟨Except.error e, none, [RemoteCall.search name "database" none]⟩
       | Except.ok (createCalls, db) =>
           ⟨Except.ok db, some db,
             [RemoteCall.search name "database" none] ++ createCalls⟩) := by
  simp [Linker.attach, Linker._find_existed_by_name, hm]

lemma _create_database_ok (cfg : LinkerConfig) (env : Env) (name : String)
    (pid : Nat) (cc : List RemoteCall) (db : Database)
    (h : Linker._create_database cfg env name pid = Except.ok (cc, db)) :
    cc = [RemoteCall.createDatabase pid name] ∧ db = env.createdDatabase := by
  unfold Linker._create_database at h
  rcases hp : cfg.define_database_properties with _ | props
  · rw [hp] at h
    simp at h
  · rw [hp] at h
    rcases hi : Linker.resolveIcon cfg with e | icon
    · rw [hi] at h
      simp at h
    · rw [hi] at h
      simp only [Except.ok.injEq, Prod.mk.injEq] at h
      exact ⟨h.1.symm, h.2.symm⟩

lemma attach_unattached_state (cfg : LinkerConfig) (env : Env) (name : String)
    (pid : Nat) :
    (Linker.attach cfg env none name pid).attached_database =
      (Linker.attach cfg env none name pid).result.toOption := by
  rcases hm : Linker.matchedDatabases name (some pid) env.searchResponse.results with
    _ | ⟨d1, _ | ⟨d2, rest⟩⟩
  · rw [attach_zero cfg env name pid hm]
    rcases hc : Linker._create_database cfg env name pid with e | ⟨cc, db⟩ <;>
      simp [hc, Except.toOption]
  · rw [attach_single cfg env name pid d1 hm]
    simp [Except.toOption]
  · rw [attach_ambiguous cfg env name pid d1 d2 rest hm]
    simp [Except.toOption]

lemma insert_attached (cfg : LinkerConfig) (env : Env)
    (attached : Option Database) (st : RemoteState) (r : Rec) :
    (Linker.insert cfg env attached st r).attached_database = attached := by
  cases attached with
  | none => rfl
  | some db =>
      unfold Linker.insert
      cases cfg.model_validate r with
      | none => rfl
      | some v =>
          cases env.createPageResult <;> cases env.appendResult <;>
            by_cases hskip : cfg.not_insert_when v = true <;>
            by_cases hch : (cfg.define_page_content v).length ≠ 0 <;>
            simp [hskip, hch]

/-- C2: when the state is Attached, the record validates, the skip predicate
is false, the record-creation call succeeds and the content-append call
fails, `insert` surfaces the append failure (the spec's
`PartialCreationError` situation) to the caller unchanged; the created
record remains present in the collection, the trace is exactly one create
followed by one append (no retry), and no rollback call such as a delete is
issued. -/
theorem C2_partial_creation_surfaced (cfg : LinkerConfig) (env : Env)
    (db : Database) (st : RemoteState) (record validated : Rec) (page : PageObj)
    (e : RemoteErr)
    (hval : cfg.model_validate record = some validated)
    (hskip : cfg.not_insert_when validated = false)
    (hchildren : (cfg.define_page_content validated).length ≠ 0)
    (hcreate : env.createPageResult = Except.ok page)
    (happend : env.appendResult = Except.error e) :
    (Linker.insert cfg env (some db) st record).result =
        Except.error (LinkerErr.remote e) ∧
      (Linker.insert cfg env (some db) st record).remote =
        ⟨st.records ++ [page.id]⟩ ∧
      (Linker.insert cfg env (some db) st record).calls =
        [RemoteCall.createPage db.id, RemoteCall.appendChildren page.id] ∧
      (Linker.insert cfg env (some db) st record).calls.filter isTrashCall = [] := by
  have h : Linker.insert cfg env (some db) st record =
      ⟨Except.error (LinkerErr.remote e), some db, ⟨st.records ++ [page.id]⟩,
        [RemoteCall.createPage db.id, RemoteCall.appendChildren page.id]⟩ := by
    simp [Linker.insert, hval, hskip, hchildren, hcreate, happend]
  rw [h]
  exact ⟨rfl, rfl, rfl, rfl⟩

/-- C2 witness: concrete partial-creation scenario (append fails with error
7 after a successful create). -/
theorem C2_partial_creation_surfaced_witness :
    (Linker.insert cfgBase envC2 (some dbA) st5 0).result =
        Except.error (LinkerErr.remote 7) ∧
      (Linker.insert cfgBase envC2 (some dbA) st5 0).remote =
        ⟨st5.records ++ [page0.id]⟩ ∧
      (Linker.insert cfgBase envC2 (some dbA) st5 0).calls =
        [RemoteCall.createPage dbA.id, RemoteCall.appendChildren page0.id] ∧
      (Linker.insert cfgBase envC2 (some dbA) st5 0).calls.filter isTrashCall = [] :=
  C2_partial_creation_surfaced cfgBase envC2 dbA st5 0 0 page0 7 rfl rfl
    (by decide) rfl rfl

/-- C3: in the Unattached state, when more than one candidate remains after
filtering, `attach` fails with the ambiguous-match error, issues only the
single search call (zero create calls), and leaves the linker Unattached. -/
theorem C3_ambiguous_match (cfg : LinkerConfig) (env : Env) (name : String)
    (pid : Nat) (d1 d2 : Database) (rest : List Database)
    (hm : Linker.matchedDatabases name (some pid) env.searchResponse.results =
      d1 :: d2 :: rest) :
    Linker.attach cfg env none name pid =
      ⟨Except.error (LinkerErr.ambiguousMatch (d1 :: d2 :: rest).length), none,
        [RemoteCall.search name "database" none]⟩ ∧
    (Linker.attach cfg env none name pid).calls.filter isCreateCall = [] := by
  have h := attach_ambiguous cfg env name pid d1 d2 rest hm
  exact ⟨h, by rw [h]; rfl⟩

/-- C3 witness: two non-archived "Expenses" databases under parent page 1. -/
theorem C3_ambiguous_match_witness :
    Linker.attach cfgBase envC3 none "Expenses" 1 =
      ⟨Except.error (LinkerErr.ambiguousMatch ([dbA, dbB] : List Database).length),
        none, [RemoteCall.search "Expenses" "database" none]⟩ ∧
    (Linker.attach cfgBase envC3 none "Expenses" 1).calls.filter isCreateCall = [] :=
  C3_ambiguous_match cfgBase envC3 "Expenses" 1 dbA dbB [] rfl

/-- C4: the linker follows the two-state machine: construction yields the
Unattached state with no remote calls; attach on an Attached instance fails
with the already-attached error regardless of remote state, changing nothing
and issuing no calls; from Unattached a successful attach transitions to
Attached on the returned collection while a failed attach stays Unattached;
detach always yields Unattached with zero remote calls (hence idempotent and
a no-op when already Unattached); insert and empty never change the state
and fail with the not-attached error when Unattached. -/
theorem C4_state_machine (cfg : LinkerConfig) :
    Linker.init cfg = (none, []) ∧
    (∀ (env : Env) (db : Database) (name : String) (pid : Nat),
      Linker.attach cfg env (some db) name pid =
        ⟨Except.error (LinkerErr.alreadyAttached db.id), some db, []⟩) ∧
    (∀ (env : Env) (name : String) (pid : Nat) (d : Database),
      (Linker.attach cfg env none name pid).result = Except.ok d →
        (Linker.attach cfg env none name pid).attached_database = some d) ∧
    (∀ (env : Env) (name : String) (pid : Nat) (e : LinkerErr),
      (Linker.attach cfg env none name pid).result = Except.error e →
        (Linker.attach cfg env none name pid).attached_database = none) ∧
    (∀ st : Option Database, Linker.detach st = (none, [])) ∧
    (∀ (env : Env) (st : Option Database) (rst : RemoteState) (r : Rec),
      (Linker.insert cfg env st rst r).attached_database = st) ∧
    (∀ (env : Env) (rst : RemoteState) (r : Rec),
      (Linker.insert cfg env none rst r).result = Except.error LinkerErr.notAttached ∧
        (Linker.insert cfg env none rst r).calls = []) ∧
    (∀ (env : Env) (fuel : Nat) (rst : RemoteState),
      (Linker.empty env none fuel rst).1 = Except.error LinkerErr.notAttached) ∧
    (∀ (env : Env) (db : Database) (fuel : Nat) (rst : RemoteState),
      (Linker.empty env (some db) fuel rst).2 = some db) := by
  refine ⟨rfl, ?_, ?_, ?_, ?_, ?_, ?_, ?_, ?_⟩
  · intro env db name pid
    rfl
  · intro env name pid d h
    rw [attach_unattached_state, h]
    rfl
  · intro env name pid e h
    rw [attach_unattached_state, h]
    rfl
  · intro st
    cases st <;> rfl
  · exact fun env st rst r => insert_attached cfg env st rst r
  · intro env rst r
    exact ⟨rfl, rfl⟩
  · intro env fuel rst
    rfl
  · intro env db fuel rst
    rfl

/-- C4 witness: the already-attached failure, a concrete successful
transition to Attached, and the Unattached no-op detach. -/
theorem C4_state_machine_witness :
    Linker.attach cfgBase envC3 (some dbA) "Expenses" 1 =
      ⟨Except.error (LinkerErr.alreadyAttached dbA.id), some dbA, []⟩ ∧
    (Linker.attach cfgBase envC6 none "Expenses" 1).attached_database = some dbA ∧
    Linker.detach (none : Option Database) = (none, []) :=
  ⟨(C4_state_machine cfgBase).2.1 envC3 dbA "Expenses" 1,
   (C4_state_machine cfgBase).2.2.1 envC6 "Expenses" 1 dbA rfl,
   (C4_state_machine cfgBase).2.2.2.2.1 none⟩

/-- C5 (amended): a search result is retained iff it is not archived, its
plain-text title equals the requested title, and — when the candidate's
parent is a page reference — that page equals the requested parent page;
candidates whose parent is not a page reference (workspace- or
database-parented) are retained regardless of the requested parent. -/
theorem C5_filter_characterization (name : String) (req : Nat)
    (results : List Database) (db : Database) :
    db ∈ Linker.matchedDatabases name (some req) results ↔
      db ∈ results ∧ db.archived = false ∧ db.plain_text_title = name ∧
        ∀ pid, db.parent = ParentRef.pageId pid → pid = req := by
  simp only [Linker.matchedDatabases, List.mem_filter]
  constructor
  · rintro ⟨hmem, hb⟩
    simp only [Bool.and_eq_true, Bool.not_eq_true', beq_iff_eq] at hb
    obtain ⟨⟨ha, ht⟩, hparent⟩ := hb
    refine ⟨hmem, ha, ht, ?_⟩
    intro pid hpid
    rw [hpid] at hparent
    simpa using hparent
  · rintro ⟨hmem, ha, ht, hpar⟩
    refine ⟨hmem, ?_⟩
    simp only [Bool.and_eq_true, Bool.not_eq_true', beq_iff_eq]
    refine ⟨⟨ha, ht⟩, ?_⟩
    cases hp : db.parent with
    | pageId pid => simpa using hpar pid hp
    | databaseId i => rfl
    | workspace => rfl

/-- C5 witness: the non-archived page-parented candidate with the exact
title and the matching parent page is retained. -/
theorem C5_filter_characterization_witness :
    dbA ∈ Linker.matchedDatabases "Expenses" (some 1) [dbA, dbW] :=
  (C5_filter_characterization "Expenses" 1 [dbA, dbW] dbA).mpr
    ⟨by decide, rfl, rfl, fun pid h => by
      have h' : ParentRef.pageId 1 = ParentRef.pageId pid := h
      injection h' with h''
      exact h''.symm⟩

/-- C5 counterexample: with parent page 1 requested, the workspace-parented
candidate `dbW` is retained by the code although its parent does not equal
the requested parent page, falsifying the claim's "if and only if". -/
theorem C5_counterexample :
    dbW ∈ Linker.matchedDatabases "Expenses" (some 1) [dbW] ∧
      ¬ specClaimRetained dbW "Expenses" (some 1) := by
  constructor
  · decide
  · intro hcl
    have h := hcl.2.2 1 rfl
    simp [dbW] at h

/-- C6: in the Unattached state, when exactly one candidate remains after
filtering, attach returns that collection unchanged, becomes Attached to it,
and issues only the single search call (zero create calls, no mutation). -/
theorem C6_single_candidate (cfg : LinkerConfig) (env : Env) (name : String)
    (pid : Nat) (db : Database)
    (hm : Linker.matchedDatabases name (some pid) env.searchResponse.results = [db]) :
    Linker.attach cfg env none name pid =
      ⟨Except.ok db, some db, [RemoteCall.search name "database" none]⟩ ∧
    (Linker.attach cfg env none name pid).calls.filter isCreateCall = [] := by
  have h := attach_single cfg env name pid db hm
  exact ⟨h, by rw [h]; rfl⟩

/-- C6 witness: a single pre-existing "Expenses" collection is adopted as-is
with zero create calls. -/
theorem C6_single_candidate_witness :
    Linker.attach cfgBase envC6 none "Expenses" 1 =
      ⟨Except.ok dbA, some dbA, [RemoteCall.search "Expenses" "database" none]⟩ ∧
    (Linker.attach cfgBase envC6 none "Expenses" 1).calls.filter isCreateCall = [] :=
  C6_single_candidate cfgBase envC6 "Expenses" 1 dbA rfl

/-- C7: in the Attached state with a record that validates, a true skip
predicate makes insert return the no-result value (`None`, distinguishable
from any created record) with exactly zero remote calls and an unchanged
remote store. -/
theorem C7_skip_no_calls (cfg : LinkerConfig) (env : Env) (db : Database)
    (st : RemoteState) (record validated : Rec)
    (hval : cfg.model_validate record = some validated)
    (hskip : cfg.not_insert_when validated = true) :
    Linker.insert cfg env (some db) st record =
      ⟨Except.ok none, some db, st, []⟩ ∧
    ∀ page : PageObj,
      (Linker.insert cfg env (some db) st record).result ≠
        Except.ok (some page) := by
  have h : Linker.insert cfg env (some db) st record =
      ⟨Except.ok none, some db, st, []⟩ := by
    simp [Linker.insert, hval, hskip]
  refine ⟨h, ?_⟩
  intro page
  rw [h]
  simp

/-- C7 witness: concrete always-skip specialization. -/
theorem C7_skip_no_calls_witness :
    Linker.insert cfgSkip envZero (some dbA) st5 0 =
      ⟨Except.ok none, some dbA, st5, []⟩ ∧
    ∀ page : PageObj,
      (Linker.insert cfgSkip envZero (some dbA) st5 0).result ≠
        Except.ok (some page) :=
  C7_skip_no_calls cfgSkip envZero dbA st5 0 0 rfl rfl

/-- C8: a specialization declaring no property schema constructs fine and
attaches to a pre-existing collection; exactly on the create-new-collection
path (zero candidates) attach fails with the configuration error, raised at
the point creation is attempted, with no create call issued. -/
theorem C8_no_schema_config_error (cfg : LinkerConfig) (env : Env)
    (name : String) (pid : Nat)
    (hschema : cfg.define_database_properties = none) :
    Linker.init cfg = (none, []) ∧
    (∀ db, Linker.matchedDatabases name (some pid) env.searchResponse.results = [db] →
      Linker.attach cfg env none name pid =
        ⟨Except.ok db, some db, [RemoteCall.search name "database" none]⟩) ∧
    (Linker.matchedDatabases name (some pid) env.searchResponse.results = [] →
      Linker.attach cfg env none name pid =
        ⟨Except.error LinkerErr.configurationError, none,
          [RemoteCall.search name "database" none]⟩ ∧
      (Linker.attach cfg env none name pid).calls.filter isCreateCall = []) := by
  refine ⟨rfl, ?_, ?_⟩
  · intro db hm
    exact attach_single cfg env name pid db hm
  · intro hm
    have h0 : Linker._create_database cfg env name pid =
        Except.error LinkerErr.configurationError := by
      simp [Linker._create_database, hschema]
    have h := attach_zero cfg env name pid hm
    rw [h0] at h
    exact ⟨h, by rw [h]; rfl⟩

/-- C8 witness: the schemaless specialization attaches to the pre-existing
collection, and hits the configuration error exactly on the create path. -/
theorem C8_no_schema_config_error_witness :
    Linker.attach cfgNoSchema envC6 none "Expenses" 1 =
      ⟨Except.ok dbA, some dbA, [RemoteCall.search "Expenses" "database" none]⟩ ∧
    Linker.attach cfgNoSchema envZero none "Expenses" 1 =
      ⟨Except.error LinkerErr.configurationError, none,
        [RemoteCall.search "Expenses" "database" none]⟩ :=
  ⟨(C8_no_schema_config_error cfgNoSchema envC6 "Expenses" 1 rfl).2.1 dbA rfl,
   ((C8_no_schema_config_error cfgNoSchema envZero "Expenses" 1 rfl).2.2 rfl).1⟩

/-- C9: icon resolution evaluates the emoji hook first (a valid one wins
regardless of the external hook), then the external-URL hook, else none; an
emoji hook whose value is not exactly one character is a hard validation
error raised at resolution time on the create path, not at construction — a
linker with a broken emoji hook still constructs and attaches to a
pre-existing collection, the error surfacing only when a create needs the
icon (with no create call issued). -/
theorem C9_icon_resolution (cfg : LinkerConfig) (env : Env) (name : String)
    (pid : Nat) (s : String) :
    (cfg.define_emoji_icon = some s → s.length = 1 →
      Linker.resolveIcon cfg = Except.ok (some (IconObject.emoji s))) ∧
    (cfg.define_emoji_icon = none →
      Linker.resolveIcon cfg = Except.ok (Linker._validate_external_icon cfg)) ∧
    (cfg.define_emoji_icon = none → cfg.define_external_icon = none →
      Linker.resolveIcon cfg = Except.ok none) ∧
    (cfg.define_emoji_icon = some s → s.length ≠ 1 →
      Linker.init cfg = (none, []) ∧
      (∀ db, Linker.matchedDatabases name (some pid) env.searchResponse.results = [db] →
        Linker.attach cfg env none name pid =
          ⟨Except.ok db, some db, [RemoteCall.search name "database" none]⟩) ∧
      (∀ props, cfg.define_database_properties = some props →
        Linker.matchedDatabases name (some pid) env.searchResponse.results = [] →
        Linker.attach cfg env none name pid =
          ⟨Except.error (LinkerErr.invalidEmoji s), none,
            [RemoteCall.search name "database" none]⟩ ∧
        (Linker.attach cfg env none name pid).calls.filter isCreateCall = [])) := by
  refine ⟨?_, ?_, ?_, ?_⟩
  · intro he hlen
    have hne : s ≠ "" := by
      intro h0
      rw [h0] at hlen
      simp at hlen
    simp [Linker.resolveIcon, Linker._validate_emoji_icon, he, hlen, hne]
  · intro he
    simp [Linker.resolveIcon, Linker._validate_emoji_icon, he]
  · intro he hx
    simp [Linker.resolveIcon, Linker._validate_emoji_icon,
      Linker._validate_external_icon, he, hx]
  · intro he hlen
    refine ⟨rfl, ?_, ?_⟩
    · intro db hm
      exact attach_single cfg env name pid db hm
    · intro props hp hm
      have h0 : Linker._create_database cfg env name pid =
          Except.error (LinkerErr.invalidEmoji s) := by
        simp [Linker._create_database, hp, Linker.resolveIcon,
          Linker._validate_emoji_icon, he, hlen]
      have h := attach_zero cfg env name pid hm
      rw [h0] at h
      exact ⟨h, by rw [h]; rfl⟩

/-- C9 witness: a valid emoji hook wins over the external hook; the broken
two-character hook still attaches to a pre-existing collection and fails
exactly on the create path. -/
theorem C9_icon_resolution_witness :
    Linker.resolveIcon cfgEmoji = Except.ok (some (IconObject.emoji "x")) ∧
    Linker.attach cfgBadEmoji envC6 none "Expenses" 1 =
      ⟨Except.ok dbA, some dbA, [RemoteCall.search "Expenses" "database" none]⟩ ∧
    Linker.attach cfgBadEmoji envZero none "Expenses" 1 =
      ⟨Except.error (LinkerErr.invalidEmoji "xx"), none,
        [RemoteCall.search "Expenses" "database" none]⟩ :=
  ⟨(C9_icon_resolution cfgEmoji envC6 "Expenses" 1 "x").1 rfl (by decide),
   ((C9_icon_resolution cfgBadEmoji envC6 "Expenses" 1 "xx").2.2.2 rfl
      (by decide)).2.1 dbA rfl,
   (((C9_icon_resolution cfgBadEmoji envZero "Expenses" 1 "xx").2.2.2 rfl
      (by decide)).2.2 ["Name"] rfl rfl).1⟩

/-- C10: every attach call from the Unattached state issues exactly one
search request, always cursor-less, never following the returned next
cursor (whatever `has_more` / `next_cursor` say); candidate filtering
considers only the first page of results returned by that single search. -/
theorem C10_single_search_no_cursor (cfg : LinkerConfig) (env : Env)
    (name : String) (pid : Nat) :
    (Linker.attach cfg env none name pid).calls.filter isSearchCall =
      [RemoteCall.search name "database" none] ∧
    Linker._find_existed_by_name env name (some pid) none =
      ([RemoteCall.search name "database" none],
        Linker.matchedDatabases name (some pid) env.searchResponse.results) := by
  refine ⟨?_, rfl⟩
  rcases hm : Linker.matchedDatabases name (some pid) env.searchResponse.results with
    _ | ⟨d1, _ | ⟨d2, rest⟩⟩
  · rw [attach_zero cfg env name pid hm]
    rcases hc : Linker._create_database cfg env name pid with e | ⟨cc, db⟩
    · rfl
    · obtain ⟨hcc, hdb⟩ := _create_database_ok cfg env name pid cc db hc
      subst hcc
      rfl
  · rw [attach_single cfg env name pid d1 hm]
    rfl
  · rw [attach_ambiguous cfg env name pid d1 d2 rest hm]
    rfl

end NotionSDK
